import Mathlib

/-!
Verification development for the IIASA ABM results-analysis repository.

The definitions below are a shallow embedding of the sector-aggregation and
mean/difference pipeline in `data_processing/aggregation.py` (together with the
constants it imports from `constants.py`).  Arrays are modelled as a shape
(list of axis lengths) together with a total data function from index tuples
to rationals; numpy's exact floating-point values are idealised as rational
arithmetic.  Fallible operations (Python list indexing, numpy element access,
the explicit `raise ValueError`, numpy's `AxisError` from `np.mean`) are
modelled in an `Except` monad over a small error type distinguishing the
Python exception classes involved.
-/

set_option maxRecDepth 4000

/-- Python exception classes raised by the modelled code: `ValueError`
(the explicit `raise` in `aggregateSectorNace62ToNace1`), `IndexError`
(out-of-range list / array indexing) and numpy's `AxisError`
(from `np.mean(..., axis=1)` on an array of rank < 2). -/
inductive PyErr where
  | valueError (msg : String)
  | indexError (msg : String)
  | axisError (msg : String)
deriving DecidableEq, Repr

/-- The message carried by an exception (Python `str(e)`). -/
def PyErr.msg : PyErr → String
  | .valueError m => m
  | .indexError m => m
  | .axisError m => m

/-- A numpy ndarray: a shape together with a total data function on index
tuples.  Only indices that are in bounds for `shape` are meaningful. -/
structure NDArray where
  shape : List Nat
  data : List Nat → ℚ

/-- Normalise a Python sequence index: negative indices count from the end. -/
def pyNorm (len : Nat) (i : Int) : Int :=
  if i < 0 then (len : Int) + i else i

/-- Python list read `l[i]` (negative indices wrap; out of range raises
`IndexError: list index out of range`). -/
def pyGet {α : Type} (l : List α) (i : Int) : Except String α :=
  let j := pyNorm l.length i
  if h : 0 ≤ j ∧ j.toNat < l.length then .ok (l.get ⟨j.toNat, h.2⟩)
  else .error "list index out of range"

/-- Python list assignment `l[i] = v` (negative indices wrap; out of range
raises `IndexError: list assignment index out of range`). -/
def pySet {α : Type} (l : List α) (i : Int) (v : α) : Except String (List α) :=
  let j := pyNorm l.length i
  if 0 ≤ j ∧ j.toNat < l.length then .ok (l.set j.toNat v)
  else .error "list assignment index out of range"

/-- Bounds check for a full-length numpy index tuple. -/
def inBounds (shape idx : List Nat) : Bool :=
  idx.length == shape.length &&
    (List.range idx.length).all (fun i => idx.getD i 0 < shape.getD i 0)

/-- numpy element read `a[tuple(idx)]`.  The analysis code only indexes with
full-length nonnegative tuples on its intended rank-3/rank-4 paths, so a tuple
of the wrong length (or out of bounds) is modelled as an `IndexError`. -/
def npGet (a : NDArray) (idx : List Nat) : Except String ℚ :=
  if inBounds a.shape idx then .ok (a.data idx)
  else .error "index out of bounds"

/-- numpy element write `a[tuple(idx)] = v`. -/
def npSet (a : NDArray) (idx : List Nat) (v : ℚ) : Except String NDArray :=
  if inBounds a.shape idx then
    .ok { shape := a.shape, data := fun j => if j = idx then v else a.data j }
  else .error "index out of bounds"

/-- Fold a fallible body over a list (the shape nested `for` loops take in the
`Except` monad). -/
def efold {σ α : Type} {ε : Type} (f : σ → α → Except ε σ) : List α → σ → Except ε σ
  | [], st => .ok st
  | a :: l, st => do
    let st' ← f st a
    efold f l st'

/-- Map a fallible function over a list, stopping at the first error. -/
def emap {α β : Type} {ε : Type} (f : α → Except ε β) : List α → Except ε (List β)
  | [] => .ok []
  | a :: l => do
    let b ← f a
    let l' ← emap f l
    .ok (b :: l')

/-- Tag the index errors produced inside the aggregation loops with their
Python exception class. -/
def wrapIndex {α : Type} : Except String α → Except PyErr α
  | .ok a => .ok a
  | .error m => .error (.indexError m)

/-! Constants from `constants.py`. -/

/-- `constants.sectors_nace_62`: the 62 fine-grained NACE sector codes. -/
def sectors_nace_62 : List String :=
  ["A01", "A02", "A03", "B", "C10-C12", "C13-C15", "C16", "C17", "C18", "C19",
   "C20", "C21", "C22", "C23", "C24", "C25", "C26", "C27", "C28", "C29", "C30",
   "C31_C32", "C33", "D", "E36", "E37-E39", "F", "G45", "G46", "G47", "H49",
   "H50", "H51", "H52", "H53", "I", "J58", "J59_J60", "J61", "J62_J63", "K64",
   "K65", "K66", "L", "M69_M70", "M71", "M72", "M73", "M74_M75", "N77", "N78",
   "N79", "N80-N82", "O", "P", "Q86", "Q87_Q88", "R90-R92", "R93", "S94",
   "S95", "S96"]

/-- `constants.sectors_nace_1`: the 19 coarse NACE sector codes. -/
def sectors_nace_1 : List String :=
  ["A", "B", "C", "D", "E", "F", "G", "H", "I", "J", "K", "L", "M", "N", "O",
   "P", "Q", "R", "S"]

/-- `constants.time_steps`: thirteen quarters. -/
def time_steps : List String :=
  (List.range 13).map (fun i => "Quarter " ++ toString i)

/-- `constants.experiments`: eighteen Monte Carlo experiment labels. -/
def experiments : List String :=
  (List.range 18).map (fun i => "E" ++ toString i)

/-- `constants.thingsWeCareAbout`: the tracked economic variable names. -/
def thingsWeCareAbout : List String :=
  ["capital_consumption", "capital_loss", "compensation_employees", "euribor",
   "government_debt", "government_deficit", "nominal_capitalformation",
   "nominal_exports", "nominal_fixed_capitalformation",
   "nominal_fixed_capitalformation_dwellings", "nominal_gdp",
   "nominal_government_consumption", "nominal_gva",
   "nominal_household_consumption", "nominal_imports", "nominal_output",
   "nominal_sector_gva", "nominal_sector_output", "operating_surplus",
   "real_capitalformation", "real_exports", "real_fixed_capitalformation",
   "real_fixed_capitalformation_dwellings", "real_gdp",
   "real_government_consumption", "real_gva", "real_household_consumption",
   "real_imports", "real_output", "real_sector_gva", "real_sector_output",
   "sector_capital_consumption", "sector_capital_loss",
   "sector_operating_surplus", "taxes_production", "unemployment_rate",
   "wages"]

/-! The aggregation function `aggregateSectorNace62ToNace1` from
`data_processing/aggregation.py`. -/

/-- Python `sector.startswith(nace1_code)`. -/
def startswith (s pre : String) : Bool :=
  pre.data.isPrefixOf s.data

/-- `find_dimension_index(shape, target_length)`: index of the first axis whose
length equals the target, or `-1` if none does. -/
def find_dimension_index : List Nat → Nat → Int
  | [], _ => -1
  | d :: rest, t =>
    if d = t then 0
    else
      let r := find_dimension_index rest t
      if r = -1 then -1 else r + 1

/-- `get_sector_mappings(sector_index, nace1_code, sectors_nace_62_tuple)`:
indices of the fine sectors whose code starts with the given coarse code
(the `lru_cache` is a pure optimisation and is not modelled). -/
def get_sector_mappings (sector_index : Nat) (nace1_code : String)
    (sectors_nace_62_tuple : List String) : List Nat :=
  (List.range sectors_nace_62_tuple.length).filter
    (fun i => startswith (sectors_nace_62_tuple.getD i "") nace1_code)

/-- The 4-D branch: `countryDim = 3 - sectorDim - timeDim - expDim`,
commented in the source as "The remaining dimension". -/
def countryDim4 (sectorDim timeDim expDim : Int) : Int :=
  3 - sectorDim - timeDim - expDim

/-- The 3-D branch: `countryDim = 3 - sectorDim - timeDim`. -/
def countryDim3 (sectorDim timeDim : Int) : Int :=
  3 - sectorDim - timeDim

/-- Body of the innermost sector sum: set `idx[sectorDim] = sec_idx`, read the
input there, and accumulate. -/
def sumMatched (inArray : NDArray) (idxBase : List Nat) (sectorDim : Int)
    (matched : List Nat) : Except String ℚ :=
  efold (fun acc sec => do
    let idx ← pySet idxBase sectorDim sec
    let v ← npGet inArray idx
    .ok (acc + v)) matched 0

/-- One write of the aggregation loops: compute the matched fine sectors for
coarse sector `s`, sum the input over them, and store the sum at the coarse
position. -/
def aggWriteOne (inArray : NDArray) (s1 s62 : List String) (sectorDim : Int)
    (idxBase : List Nat) (aggArray : NDArray) (s : Nat) :
    Except String NDArray := do
  let matched := get_sector_mappings s (s1.getD s "") s62
  let sumVal ← sumMatched inArray idxBase sectorDim matched
  let idxW ← pySet idxBase sectorDim s
  npSet aggArray idxW sumVal

/-- The 4-D aggregation loops (`for t ... for e ... for c ... for s ...`). -/
def aggLoops4 (inArray : NDArray) (s1 s62 : List String) (shape : List Nat)
    (sectorDim timeDim expDim countryDim : Int) (init : NDArray) :
    Except String NDArray := do
  let nT ← pyGet shape timeDim
  efold (fun arr t => do
      let nE ← pyGet shape expDim
      efold (fun arr e => do
          let nC ← pyGet shape countryDim
          efold (fun arr c => do
              let idx1 ← pySet [0, 0, 0, 0] timeDim t
              let idx2 ← pySet idx1 expDim e
              let idx3 ← pySet idx2 countryDim c
              efold (fun arr s => aggWriteOne inArray s1 s62 sectorDim idx3 arr s)
                (List.range s1.length) arr)
            (List.range nC) arr)
        (List.range nE) arr)
    (List.range nT) init

/-- The 3-D aggregation loops (`for t ... for c ... for s ...`); this branch is
also what runs for any rank other than 4 once a sector axis was found. -/
def aggLoops3 (inArray : NDArray) (s1 s62 : List String) (shape : List Nat)
    (sectorDim timeDim countryDim : Int) (init : NDArray) :
    Except String NDArray := do
  let nT ← pyGet shape timeDim
  efold (fun arr t => do
      let nC ← pyGet shape countryDim
      efold (fun arr c => do
          let idx1 ← pySet [0, 0, 0] timeDim t
          let idx2 ← pySet idx1 countryDim c
          efold (fun arr s => aggWriteOne inArray s1 s62 sectorDim idx2 arr s)
            (List.range s1.length) arr)
        (List.range nC) arr)
    (List.range nT) init

/-- Lines 77 onwards of `aggregateSectorNace62ToNace1`, once a sector axis
index has been chosen: build `new_shape`, initialise the accumulator with
`np.ones(new_shape)`, resolve the other axes and run the summation loops. -/
def aggCore (inArray : NDArray) (s1 s62 ts : List String) (sectorDim : Int) :
    Except String NDArray := do
  let shape := inArray.shape
  let newShape ← pySet shape sectorDim s1.length
  let aggArray : NDArray := { shape := newShape, data := fun _ => 1 }
  if shape.length = 4 then
    let tD := find_dimension_index shape ts.length
    let timeDim := if tD = -1 then 0 else tD
    let eD := find_dimension_index shape experiments.length
    let expDim := if eD = -1 then 1 else eD
    aggLoops4 inArray s1 s62 shape sectorDim timeDim expDim
      (countryDim4 sectorDim timeDim expDim) aggArray
  else
    let tD := find_dimension_index shape ts.length
    let timeDim := if tD = -1 then 0 else tD
    aggLoops3 inArray s1 s62 shape sectorDim timeDim
      (countryDim3 sectorDim timeDim) aggArray

/-- `aggregateSectorNace62ToNace1(inArray, sectors_nace_1, sectors_nace_62,
time_steps)` from `data_processing/aggregation.py`.  Returns the list of
printed diagnostics together with the outcome (result array or raised
exception).  The `print` calls all happen in the `sectorDim == -1` block, so
they are collected before the raise/fallback decision, exactly as in the
source. -/
def aggregateSectorNace62ToNace1 (inArray : NDArray)
    (sectors_nace_1 sectors_nace_62 time_steps : List String) :
    List String × Except PyErr NDArray :=
  let shape := inArray.shape
  let sectorDim := find_dimension_index shape sectors_nace_62.length
  if sectorDim = -1 then
    let warns :=
      ["Warning: Could not find dimension with length " ++
         toString sectors_nace_62.length ++ " in array with shape " ++
         toString shape,
       "Input array shape: " ++ toString shape,
       "Sectors NACE 62 length: " ++ toString sectors_nace_62.length,
       "Sectors NACE 1 length: " ++ toString sectors_nace_1.length]
    if shape.length = 3 then
      (warns ++ ["Using best guess for sector dimension: 2"],
       wrapIndex (aggCore inArray sectors_nace_1 sectors_nace_62 time_steps 2))
    else if shape.length = 4 then
      (warns ++ ["Using best guess for sector dimension: 3"],
       wrapIndex (aggCore inArray sectors_nace_1 sectors_nace_62 time_steps 3))
    else
      (warns,
       .error (.valueError ("Cannot determine sector dimension in array with shape "
         ++ toString shape)))
  else
    ([], wrapIndex (aggCore inArray sectors_nace_1 sectors_nace_62 time_steps sectorDim))

/-- Observe one element of the aggregation result (`none` when the call
raised). -/
def aggResultData (inArray : NDArray) (s1 s62 ts : List String)
    (idx : List Nat) : Option ℚ :=
  match (aggregateSectorNace62ToNace1 inArray s1 s62 ts).2 with
  | .ok arr => some (arr.data idx)
  | .error _ => none

/-- Observe the exception raised by an aggregation call (`none` on success). -/
def aggResultErr (inArray : NDArray) (s1 s62 ts : List String) : Option PyErr :=
  match (aggregateSectorNace62ToNace1 inArray s1 s62 ts).2 with
  | .ok _ => none
  | .error e => some e

/-- Observe the shape of the aggregation result. -/
def aggResultShape (inArray : NDArray) (s1 s62 ts : List String) :
    Option (List Nat) :=
  match (aggregateSectorNace62ToNace1 inArray s1 s62 ts).2 with
  | .ok arr => some arr.shape
  | .error _ => none

/-! The mean/difference pipeline `calculate_means_and_differences` from
`data_processing/aggregation.py`.  A dataset (`dict` of numpy arrays, e.g. the
loaded baseline) is modelled as an association list with Python-dict update
semantics: insertion replaces an existing entry in place and otherwise appends
at the end. -/

/-- A dataset: mapping from variable name to array. -/
abbrev Dataset := List (String × NDArray)

/-- Dictionary read: `d[k]` if present (`k in d` is `(dlookup k d).isSome`). -/
def dlookup (k : String) : Dataset → Option NDArray
  | [] => none
  | (k', v) :: rest => if k' = k then some v else dlookup k rest

/-- Dictionary write `d[k] = v`: replace in place, or append when absent. -/
def dinsert (k : String) (v : NDArray) : Dataset → Dataset
  | [] => [(k, v)]
  | (k', v') :: rest =>
    if k' = k then (k, v) :: rest else (k', v') :: dinsert k v rest

/-- `np.mean(a, axis=1)`: drop axis 1 and average over it. -/
def meanAxis1 (a : NDArray) : NDArray :=
  let n := a.shape.getD 1 0
  { shape := a.shape.eraseIdx 1,
    data := fun idx =>
      (((List.range n).map (fun j => a.data (idx.insertIdx 1 j))).sum) / (n : ℚ) }

/-- `np.mean(a, axis=1)` raises `AxisError` when the array has rank < 2. -/
def npMeanAxis1 (a : NDArray) : Except PyErr NDArray :=
  if 2 ≤ a.shape.length then .ok (meanAxis1 a)
  else
    .error (.axisError ("axis 1 is out of bounds for array of dimension " ++
      toString a.shape.length))

/-- One iteration of the means loop (`for key in thingsWeCareAbout`): when the
key is in the baseline and its array has rank at least 2, store the axis-1
mean in the baseline and then in every scenario that has the key (the scenario
mean is not guarded by the scenario array's own rank, exactly as in the
source). -/
def meansKey (key : String) (st : Dataset × List Dataset) :
    Except PyErr (Dataset × List Dataset) :=
  match dlookup key st.1 with
  | none => .ok st
  | some a =>
    if 2 ≤ a.shape.length then do
      let m ← npMeanAxis1 a
      let scs ← emap (fun sc =>
        match dlookup key sc with
        | none => .ok sc
        | some b => do
          let mb ← npMeanAxis1 b
          .ok (dinsert (key ++ "_mean") mb sc)) st.2
      .ok (dinsert (key ++ "_mean") m st.1, scs)
    else .ok st

/-- The means loop over an arbitrary key list. -/
def meansFold (L : List String) (st : Dataset × List Dataset) :
    Except PyErr (Dataset × List Dataset) :=
  efold (fun st k => meansKey k st) L st

/-- The means phase of `calculate_means_and_differences` (the spec's
`computeMeans`, applied to the baseline and all scenarios). -/
def meansStep (base : Dataset) (scenarios : List Dataset) :
    Except PyErr (Dataset × List Dataset) :=
  meansFold thingsWeCareAbout (base, scenarios)

/-- Python substring test (`'sector' in key`). -/
def strContains (s sub : String) : Bool :=
  s.data.tails.any (fun t => sub.data.isPrefixOf t)

/-- `extended_things`: the tracked names plus the `_mean` names actually
present in the baseline after the means phase. -/
def extendWithMeans (base : Dataset) : List String :=
  thingsWeCareAbout ++
    (thingsWeCareAbout.filter (fun k => (dlookup (k ++ "_mean") base).isSome)).map
      (fun k => k ++ "_mean")

/-- State threaded through the sector-aggregation phase. -/
structure AggState where
  base : Dataset
  scenarios : List Dataset
  extended : List String
  log : List String

/-- The scenario loop of the aggregation phase for one key.  An exception at
scenario `s` leaves scenarios `0 .. s-1` updated, scenario `s` and the rest
untouched, and is reported to the caller (the `try` block covers the whole
loop). -/
def aggScenarios (key keyN : String) (s1 s62 ts : List String) :
    List Dataset → List Dataset × Option PyErr
  | [] => ([], none)
  | sc :: rest =>
    match dlookup key sc with
    | none =>
      let r := aggScenarios key keyN s1 s62 ts rest
      (sc :: r.1, r.2)
    | some a =>
      match (aggregateSectorNace62ToNace1 a s1 s62 ts).2 with
      | .error e => (sc :: rest, some e)
      | .ok arr =>
        let r := aggScenarios key keyN s1 s62 ts rest
        (dinsert keyN arr sc :: r.1, r.2)

/-- The caught-exception diagnostics printed by the aggregation phase. -/
def aggCatchLog (key : String) (e : PyErr) : List String :=
  ["Warning: Could not aggregate sectors for " ++ key ++ ": " ++ e.msg,
   "Skipping sector aggregation for " ++ key]

/-- One iteration of the aggregation phase
(`for key in extended_things.copy(): if 'sector' in key and key in base`),
with its `try`/`except` that logs and keeps going: a failure on the baseline
array changes nothing; a failure in the scenario loop keeps the baseline
update, the `extended_things` append and the earlier scenarios' updates. -/
def aggStepKey (s1 s62 ts : List String) (st : AggState) (key : String) :
    AggState :=
  if strContains key "sector" then
    match dlookup key st.base with
    | none => st
    | some a =>
      match (aggregateSectorNace62ToNace1 a s1 s62 ts).2 with
      | .error e => { st with log := st.log ++ aggCatchLog key e }
      | .ok arr =>
        let base' := dinsert (key ++ "_nace1") arr st.base
        let ext' := st.extended ++ [key ++ "_nace1"]
        let r := aggScenarios key (key ++ "_nace1") s1 s62 ts st.scenarios
        match r.2 with
        | none =>
          { base := base', scenarios := r.1, extended := ext', log := st.log }
        | some e =>
          { base := base', scenarios := r.1, extended := ext',
            log := st.log ++ aggCatchLog key e }
  else st

/-- The sector-aggregation phase: iterate over a snapshot of
`extended_things` (appends go to the state, not the iterated copy). -/
def aggStep (s1 s62 ts : List String) (base : Dataset)
    (scenarios : List Dataset) (extended : List String) : AggState :=
  extended.foldl (aggStepKey s1 s62 ts)
    { base := base, scenarios := scenarios, extended := extended, log := [] }

/-- `np.divide(scenario, base, out=np.zeros_like(scenario), where=base!=0)`. -/
def mkRel (A B : NDArray) : NDArray :=
  { shape := B.shape,
    data := fun i => if A.data i ≠ 0 then B.data i / A.data i else 0 }

/-- `scenario - base`. -/
def mkDif (A B : NDArray) : NDArray :=
  { shape := B.shape, data := fun i => B.data i - A.data i }

/-- `np.divide(scenario - base, base, out=np.zeros_like(scenario),
where=base!=0)`. -/
def mkDifRel (A B : NDArray) : NDArray :=
  { shape := B.shape,
    data := fun i => if A.data i ≠ 0 then (B.data i - A.data i) / A.data i else 0 }

/-- The shape-mismatch diagnostic of the comparison phase. -/
def shapeWarn (key : String) (A B : NDArray) : String :=
  "Warning: Shapes do not match for " ++ key ++ ". Base: " ++
    toString A.shape ++ ", Scenario: " ++ toString B.shape

/-- Accumulator for one scenario's comparison maps. -/
structure CompAcc where
  rel : Dataset
  dif : Dataset
  difRel : Dataset
  log : List String

/-- One iteration of the comparison loop (`for key in extended_things`):
skip silently when the key is missing on either side, warn and skip on a
shape mismatch, otherwise store all three element-wise comparison arrays. -/
def compareKey (base sc : Dataset) (acc : CompAcc) (key : String) : CompAcc :=
  match dlookup key base, dlookup key sc with
  | some A, some B =>
    if A.shape = B.shape then
      { acc with
        rel := dinsert key (mkRel A B) acc.rel,
        dif := dinsert key (mkDif A B) acc.dif,
        difRel := dinsert key (mkDifRel A B) acc.difRel }
    else { acc with log := acc.log ++ [shapeWarn key A B] }
  | _, _ => acc

/-- The comparison maps for one scenario. -/
def compareOne (base sc : Dataset) (extended : List String) : CompAcc :=
  extended.foldl (compareKey base sc) { rel := [], dif := [], difRel := [], log := [] }

/-- Result of the comparison phase: index-aligned per-scenario maps plus the
printed diagnostics. -/
structure CompOut where
  rel : List Dataset
  dif : List Dataset
  difRel : List Dataset
  log : List String

/-- The comparison phase of `calculate_means_and_differences` (the spec's
`computeComparisons`), run against every scenario. -/
def comparisonsStep (base : Dataset) (scenarios : List Dataset)
    (extended : List String) : CompOut :=
  { rel := scenarios.map (fun sc => (compareOne base sc extended).rel),
    dif := scenarios.map (fun sc => (compareOne base sc extended).dif),
    difRel := scenarios.map (fun sc => (compareOne base sc extended).difRel),
    log := (scenarios.map (fun sc => (compareOne base sc extended).log)).flatten }

/-- Everything `calculate_means_and_differences` produces: the mutated
baseline and scenario datasets, the final tracked-name list, the three
returned lists of comparison maps, and the diagnostics printed along the way. -/
structure CalcOut where
  base : Dataset
  scenarios : List Dataset
  extended : List String
  rel : List Dataset
  dif : List Dataset
  difRel : List Dataset
  log : List String

/-- `calculate_means_and_differences(base, scenarios, sectors_nace_1,
sectors_nace_62, time_steps)`: means phase, `extended_things` construction,
sector-aggregation phase (exceptions caught and logged), comparison phase. -/
def calculate_means_and_differences (base : Dataset) (scenarios : List Dataset)
    (sectors_nace_1 sectors_nace_62 time_steps : List String) :
    Except PyErr CalcOut := do
  let st ← meansStep base scenarios
  let ext := extendWithMeans st.1
  let ag := aggStep sectors_nace_1 sectors_nace_62 time_steps st.1 st.2 ext
  let co := comparisonsStep ag.base ag.scenarios ag.extended
  .ok { base := ag.base, scenarios := ag.scenarios, extended := ag.extended,
        rel := co.rel, dif := co.dif, difRel := co.difRel,
        log := ag.log ++ co.log }

/-! Observables used to state concrete-input theorems. -/

/-- Element of an optional array. -/
def optData (x : Option NDArray) (idx : List Nat) : Option ℚ :=
  x.map (fun a => a.data idx)

/-- Shape of an optional array. -/
def optShape (x : Option NDArray) : Option (List Nat) :=
  x.map NDArray.shape

/-- A variable of the mutated baseline after a successful pipeline run. -/
def calcBaseVar (base : Dataset) (scenarios : List Dataset)
    (s1 s62 ts : List String) (key : String) : Option NDArray :=
  match calculate_means_and_differences base scenarios s1 s62 ts with
  | .ok o => dlookup key o.base
  | .error _ => none

/-- A variable of mutated scenario `i` after a successful pipeline run. -/
def calcScenVar (base : Dataset) (scenarios : List Dataset)
    (s1 s62 ts : List String) (i : Nat) (key : String) : Option NDArray :=
  match calculate_means_and_differences base scenarios s1 s62 ts with
  | .ok o => (o.scenarios.get? i).bind (dlookup key)
  | .error _ => none

/-- A variable of the relative map of scenario `i`. -/
def calcRelVar (base : Dataset) (scenarios : List Dataset)
    (s1 s62 ts : List String) (i : Nat) (key : String) : Option NDArray :=
  match calculate_means_and_differences base scenarios s1 s62 ts with
  | .ok o => (o.rel.get? i).bind (dlookup key)
  | .error _ => none

/-- A variable of the absolute-difference map of scenario `i`. -/
def calcDifVar (base : Dataset) (scenarios : List Dataset)
    (s1 s62 ts : List String) (i : Nat) (key : String) : Option NDArray :=
  match calculate_means_and_differences base scenarios s1 s62 ts with
  | .ok o => (o.dif.get? i).bind (dlookup key)
  | .error _ => none

/-- A variable of the relative-difference map of scenario `i`. -/
def calcDifRelVar (base : Dataset) (scenarios : List Dataset)
    (s1 s62 ts : List String) (i : Nat) (key : String) : Option NDArray :=
  match calculate_means_and_differences base scenarios s1 s62 ts with
  | .ok o => (o.difRel.get? i).bind (dlookup key)
  | .error _ => none

/-! Concrete inputs used by the claim theorems. -/

/-- A small fine-sector catalogue (each fine code has exactly one coarse
prefix below). -/
def miniS62 : List String := ["A1", "A2", "B1", "B2"]

/-- The matching coarse catalogue. -/
def miniS1 : List String := ["A", "B"]

/-- A two-quarter time axis. -/
def miniTs : List String := ["q0", "q1"]

/-- A conventional rank-4 array (time 2, experiment 18, country 3, sector 4)
whose entries are all 5. -/
def arr4Const5 : NDArray := { shape := [2, 18, 3, 4], data := fun _ => 5 }

/-- A rank-2 array with an axis matching the fine-sector count 62. -/
def arrRank2Match : NDArray := { shape := [62, 3], data := fun _ => 5 }

/-- A rank-3 array with no axis of length 62 (and a sector axis shorter than
the fine catalogue, so the fallback summation runs out of bounds). -/
def arrRank3NoMatch : NDArray := { shape := [2, 3, 3], data := fun _ => 5 }

/-- A rank-5 array with no axis of length 62. -/
def arrRank5NoMatch : NDArray := { shape := [1, 1, 1, 1, 1], data := fun _ => 5 }

/-- Baseline array of the end-to-end example: shape (13, 18, 26), all 100. -/
def c8baseArr : NDArray := { shape := [13, 18, 26], data := fun _ => 100 }

/-- Scenario array of the end-to-end example: shape (13, 18, 26), all 110. -/
def c8scenArr : NDArray := { shape := [13, 18, 26], data := fun _ => 110 }

/-- Baseline dataset of the end-to-end example. -/
def c8base : Dataset := [("real_output", c8baseArr)]

/-- Scenario list of the end-to-end example. -/
def c8scens : List Dataset := [[("real_output", c8scenArr)]]

/-- A rank-2 array (2 x 3), all 7. -/
def arr2dSeven : NDArray := { shape := [2, 3], data := fun _ => 7 }

/-- A rank-2 array (2 x 3), all 9. -/
def arr2dNine : NDArray := { shape := [2, 3], data := fun _ => 9 }

/-- A rank-1 baseline array that is zero at index 0 and 4 at index 1. -/
def arrZeroAt0 : NDArray := { shape := [2], data := fun i => if i = [0] then 0 else 4 }

/-- A rank-1 scenario array with value 3 everywhere. -/
def arrThree : NDArray := { shape := [2], data := fun _ => 3 }

/-- A (13, 27) baseline array of ones. -/
def arr13x27 : NDArray := { shape := [13, 27], data := fun _ => 1 }

/-- A (13, 26) scenario array of ones. -/
def arr13x26 : NDArray := { shape := [13, 26], data := fun _ => 1 }

/-! General lemmas about the embedding. -/

lemma wrapIndex_ne_valueError {α : Type} (x : Except String α) (m : String) :
    wrapIndex x ≠ .error (.valueError m) := by
  cases x <;> simp [wrapIndex]

lemma wrapIndex_ok {α : Type} {x : Except String α} {a : α}
    (h : wrapIndex x = .ok a) : x = .ok a := by
  cases x with
  | ok b => cases h; rfl
  | error m => cases h

lemma bindOk {ε α β : Type} {e : Except ε α} {f : α → Except ε β} {b : β}
    (h : (e >>= f) = .ok b) : ∃ a, e = .ok a ∧ f a = .ok b := by
  cases e with
  | ok a => exact ⟨a, rfl, h⟩
  | error m => simp [Bind.bind, Except.bind] at h

lemma efold_invariant {σ α ε : Type} (P : σ → Prop) (f : σ → α → Except ε σ)
    (hf : ∀ st a st', P st → f st a = .ok st' → P st') :
    ∀ (l : List α) (st st' : σ), P st → efold f l st = .ok st' → P st' := by
  intro l
  induction l with
  | nil =>
    intro st st' hP h
    simp only [efold] at h
    cases h
    exact hP
  | cons a l ih =>
    intro st st' hP h
    simp only [efold] at h
    obtain ⟨mid, h1, h2⟩ := bindOk h
    exact ih mid st' (hf st a mid hP h1) h2

lemma npSet_shape {a b : NDArray} {idx : List Nat} {v : ℚ}
    (h : npSet a idx v = .ok b) : b.shape = a.shape := by
  unfold npSet at h
  split at h
  · cases h; rfl
  · cases h

lemma aggWriteOne_shape {inA : NDArray} {s1 s62 : List String} {sd : Int}
    {idxB : List Nat} {agg b : NDArray} {s : Nat}
    (h : aggWriteOne inA s1 s62 sd idxB agg s = .ok b) : b.shape = agg.shape := by
  unfold aggWriteOne at h
  obtain ⟨sv, h1, h2⟩ := bindOk h
  obtain ⟨iw, h3, h4⟩ := bindOk h2
  exact npSet_shape h4

lemma efold_shape {α : Type} {f : NDArray → α → Except String NDArray}
    (hf : ∀ arr a arr', f arr a = .ok arr' → arr'.shape = arr.shape)
    {l : List α} {a0 a1 : NDArray} (h : efold f l a0 = .ok a1) :
    a1.shape = a0.shape :=
  efold_invariant (fun st => st.shape = a0.shape) f
    (fun st a st' hP hs => (hf st a st' hs).trans hP) l a0 a1 rfl h

lemma aggLoops4_shape {inA : NDArray} {s1 s62 : List String} {shape : List Nat}
    {sd td ed cd : Int} {init arr : NDArray}
    (h : aggLoops4 inA s1 s62 shape sd td ed cd init = .ok arr) :
    arr.shape = init.shape := by
  unfold aggLoops4 at h
  obtain ⟨nT, h1, h2⟩ := bindOk h
  refine efold_shape (fun a t a' ht => ?_) h2
  obtain ⟨nE, g1, g2⟩ := bindOk ht
  refine efold_shape (fun b e b' he => ?_) g2
  obtain ⟨nC, k1, k2⟩ := bindOk he
  refine efold_shape (fun c0 c c1 hc => ?_) k2
  obtain ⟨i1, m1, m2⟩ := bindOk hc
  obtain ⟨i2, m3, m4⟩ := bindOk m2
  obtain ⟨i3, m5, m6⟩ := bindOk m4
  exact efold_shape (fun d0 s d1 hs => aggWriteOne_shape hs) m6

lemma aggLoops3_shape {inA : NDArray} {s1 s62 : List String} {shape : List Nat}
    {sd td cd : Int} {init arr : NDArray}
    (h : aggLoops3 inA s1 s62 shape sd td cd init = .ok arr) :
    arr.shape = init.shape := by
  unfold aggLoops3 at h
  obtain ⟨nT, h1, h2⟩ := bindOk h
  refine efold_shape (fun a t a' ht => ?_) h2
  obtain ⟨nC, k1, k2⟩ := bindOk ht
  refine efold_shape (fun c0 c c1 hc => ?_) k2
  obtain ⟨i1, m1, m2⟩ := bindOk hc
  obtain ⟨i2, m3, m4⟩ := bindOk m2
  exact efold_shape (fun d0 s d1 hs => aggWriteOne_shape hs) m4

lemma aggCore_shape {A : NDArray} {s1 s62 ts : List String} {sd : Int}
    {arr : NDArray} (h : aggCore A s1 s62 ts sd = .ok arr) :
    ∃ ns, pySet A.shape sd s1.length = .ok ns ∧ arr.shape = ns := by
  unfold aggCore at h
  obtain ⟨ns, h1, h2⟩ := bindOk h
  refine ⟨ns, h1, ?_⟩
  split at h2
  · exact aggLoops4_shape h2
  · exact aggLoops3_shape h2

lemma pySet_of_len3 {l : List Nat} {v : Nat} (h : l.length = 3) :
    pySet l 2 v = .ok (l.set 2 v) := by
  unfold pySet pyNorm
  simp [h]

lemma pySet_of_len4 {l : List Nat} {v : Nat} (h : l.length = 4) :
    pySet l 3 v = .ok (l.set 3 v) := by
  unfold pySet pyNorm
  simp [h]

/-! Claim theorems for the aggregation function. -/

/-- C1: the claim states that the output accumulator of
`aggregateSectorNace62ToNace1` is initialised to zero, so that output elements
not covered by a summed group are 0 and never 1.  The implementation in
`data_processing/aggregation.py` initialises with `np.ones`, and on a
conventional rank-4 input (time 2, experiment 18, country 3, sector 4) the
miscomputed country axis leaves every element with country index other than 0
at the fill value: the element at index (0, 0, 1, 0) of the result is 1, not
0. -/
theorem aggregate_ones_init_leaks_one :
    aggResultShape arr4Const5 miniS1 miniS62 miniTs = some [2, 18, 3, 2] ∧
    aggResultData arr4Const5 miniS1 miniS62 miniTs [0, 0, 1, 0] = some 1 ∧
    aggResultData arr4Const5 miniS1 miniS62 miniTs [0, 0, 1, 0] ≠ some 0 := by
  decide

/-- C2: the claim states that for 4-axis arrays the country axis is the unique
remaining index out of 0 to 3 after sector, time and experiment are assigned.
On the conventional shape (13, 18, 26, 62) the resolver assigns sector 3,
time 0 and experiment 1, so the unique remaining index is 2, but the code
computes `countryDim = 3 - sectorDim - timeDim - expDim = -1` (which Python
list indexing treats as axis 3, the sector axis). -/
theorem countryDim_formula_not_remaining_axis :
    find_dimension_index [13, 18, 26, 62] sectors_nace_62.length = 3 ∧
    find_dimension_index [13, 18, 26, 62] time_steps.length = 0 ∧
    find_dimension_index [13, 18, 26, 62] experiments.length = 1 ∧
    ([0, 1, 2, 3].filter (fun i => i != 3 && i != 0 && i != 1)) = [2] ∧
    countryDim4 3 0 1 = -1 ∧
    countryDim4 3 0 1 ≠ 2 := by
  decide

/-- C4: the claim states that sector aggregation is a partition sum for every
rank-3 or rank-4 input whose fine codes each match exactly one coarse prefix.
On the conventional rank-4 input `arr4Const5` (whose catalogue is a partition:
every fine code matches exactly one coarse code), at fixed time 0,
experiment 0, country 1 the coarse sums of the output do not equal the fine
sums of the input (the output row was never written and still holds the
`np.ones` fill). -/
theorem aggregate_partition_sum_violated_rank4 :
    ((List.range miniS62.length).all
      (fun i => (miniS1.filter (fun c => startswith (miniS62.getD i "") c)).length == 1)) = true ∧
    ((List.range miniS1.length).map
        (fun s => (aggResultData arr4Const5 miniS1 miniS62 miniTs [0, 0, 1, s]).getD 0)).sum ≠
      ((List.range miniS62.length).map (fun k => arr4Const5.data [0, 0, 1, k])).sum := by
  constructor
  · decide
  · have h1 : (List.range miniS1.length).map
        (fun s => (aggResultData arr4Const5 miniS1 miniS62 miniTs [0, 0, 1, s]).getD 0) =
        [(1 : ℚ), 1] := by decide
    have h2 : (List.range miniS62.length).map (fun k => arr4Const5.data [0, 0, 1, k]) =
        [(5 : ℚ), 5, 5, 5] := by decide
    rw [h1, h2]
    norm_num

/-- C7 (counterexample): the claim states that `aggregateSectorNace62ToNace1`
raises if and only if no axis length equals the fine-sector count and the rank
is neither 3 nor 4.  With the repository catalogues: a rank-2 array with an
axis of length 62 raises an `IndexError` (refuting the only-if direction), a
rank-3 array with no matching axis also raises an `IndexError` during the
fallback summation (refuting the claim that such inputs do not fail), and the
rank-5 `ValueError` message contains the shape but no variable name. -/
theorem aggregate_raise_counterexample :
    aggResultErr arrRank2Match sectors_nace_1 sectors_nace_62 time_steps =
      some (.indexError "list index out of range") ∧
    aggResultErr arrRank3NoMatch sectors_nace_1 sectors_nace_62 time_steps =
      some (.indexError "index out of bounds") ∧
    aggResultErr arrRank5NoMatch sectors_nace_1 sectors_nace_62 time_steps =
      some (.valueError "Cannot determine sector dimension in array with shape [1, 1, 1, 1, 1]") := by
  decide

/-- C7 (amended): the explicit descriptive `ValueError` (whose message names
the operation and the offending shape, but no variable name, since the
function receives none) is raised exactly when no axis length equals the
fine-sector count and the rank is neither 3 nor 4.  When no axis matches and
the rank is 3 (resp. 4) the function instead prints the best-guess warning and
proceeds with fallback sector axis 2 (resp. 3) — visible in the output shape
when the summation completes — though the summation itself may still raise an
`IndexError`. -/
theorem aggregate_error_characterisation (A : NDArray) (s1 s62 ts : List String) :
    ((aggregateSectorNace62ToNace1 A s1 s62 ts).2 =
        .error (.valueError ("Cannot determine sector dimension in array with shape "
          ++ toString A.shape)) ↔
      (find_dimension_index A.shape s62.length = -1 ∧
        A.shape.length ≠ 3 ∧ A.shape.length ≠ 4))
    ∧ (find_dimension_index A.shape s62.length = -1 → A.shape.length = 3 →
        "Using best guess for sector dimension: 2" ∈
            (aggregateSectorNace62ToNace1 A s1 s62 ts).1 ∧
          ∀ arr, (aggregateSectorNace62ToNace1 A s1 s62 ts).2 = .ok arr →
            arr.shape = A.shape.set 2 s1.length)
    ∧ (find_dimension_index A.shape s62.length = -1 → A.shape.length = 4 →
        "Using best guess for sector dimension: 3" ∈
            (aggregateSectorNace62ToNace1 A s1 s62 ts).1 ∧
          ∀ arr, (aggregateSectorNace62ToNace1 A s1 s62 ts).2 = .ok arr →
            arr.shape = A.shape.set 3 s1.length) := by
  refine ⟨?_, ?_, ?_⟩
  · constructor
    · intro h
      by_cases h1 : find_dimension_index A.shape s62.length = -1
      · by_cases h2 : A.shape.length = 3
        · simp [aggregateSectorNace62ToNace1, h1, h2] at h
          exact absurd h (wrapIndex_ne_valueError _ _)
        · by_cases h3 : A.shape.length = 4
          · simp [aggregateSectorNace62ToNace1, h1, h2, h3] at h
            exact absurd h (wrapIndex_ne_valueError _ _)
          · exact ⟨h1, h2, h3⟩
      · simp [aggregateSectorNace62ToNace1, h1] at h
        exact absurd h (wrapIndex_ne_valueError _ _)
    · rintro ⟨h1, h2, h3⟩
      simp [aggregateSectorNace62ToNace1, h1, h2, h3]
  · intro h1 h3
    constructor
    · simp [aggregateSectorNace62ToNace1, h1, h3]
    · intro arr harr
      simp only [aggregateSectorNace62ToNace1, h1, h3] at harr
      simp at harr
      have harr' := wrapIndex_ok harr
      obtain ⟨ns, hns, hsh⟩ := aggCore_shape harr'
      rw [pySet_of_len3 h3] at hns
      cases hns
      exact hsh
  · intro h1 h4
    have h3 : ¬ (A.shape.length = 3) := by omega
    constructor
    · simp [aggregateSectorNace62ToNace1, h1, h3, h4]
    · intro arr harr
      simp only [aggregateSectorNace62ToNace1, h1, h3, h4] at harr
      simp at harr
      have harr' := wrapIndex_ok harr
      obtain ⟨ns, hns, hsh⟩ := aggCore_shape harr'
      rw [pySet_of_len4 h4] at hns
      cases hns
      exact hsh

/-- C7 (witness): the amended characterisation applied to the concrete
rank-3 no-match input: its hypotheses hold there and yield the best-guess
warning among the printed diagnostics. -/
theorem aggregate_error_characterisation_witness :
    "Using best guess for sector dimension: 2" ∈
      (aggregateSectorNace62ToNace1 arrRank3NoMatch sectors_nace_1 sectors_nace_62 time_steps).1 :=
  ((aggregate_error_characterisation arrRank3NoMatch sectors_nace_1 sectors_nace_62
      time_steps).2.1 (by decide) (by decide)).1

lemma dlookup_dinsert_self (k : String) (v : NDArray) (d : Dataset) :
    dlookup k (dinsert k v d) = some v := by
  induction d with
  | nil => simp [dinsert, dlookup]
  | cons p rest ih =>
    obtain ⟨k', v'⟩ := p
    by_cases h : k' = k
    · simp [dinsert, dlookup, h]
    · simp [dinsert, dlookup, h, ih]

lemma dlookup_dinsert_ne {k k' : String} (h : k' ≠ k) (v : NDArray) (d : Dataset) :
    dlookup k' (dinsert k v d) = dlookup k' d := by
  have h' : ¬ (k = k') := fun hh => h hh.symm
  induction d with
  | nil => simp [dinsert, dlookup, h']
  | cons p rest ih =>
    obtain ⟨a, b⟩ := p
    by_cases ha : a = k
    · simp [dinsert, dlookup, ha, h']
    · simp [dinsert, dlookup, ha, ih]

section CompareLemmas

variable {base sc : Dataset} {key : String} {A B : NDArray}

lemma compareKey_log_mono (acc : CompAcc) (e : String) {w : String}
    (hw : w ∈ acc.log) : w ∈ (compareKey base sc acc e).log := by
  unfold compareKey
  rcases h1 : dlookup e base with _ | A' <;> rcases h2 : dlookup e sc with _ | B' <;>
    simp [hw]
  split <;> simp [hw]

lemma compareFold_log_mono (ext : List String) (acc : CompAcc) {w : String}
    (hw : w ∈ acc.log) : w ∈ (List.foldl (compareKey base sc) acc ext).log := by
  induction ext generalizing acc with
  | nil => exact hw
  | cons e rest ih => exact ih _ (compareKey_log_mono acc e hw)

lemma compareKey_lookup_ne (acc : CompAcc) {e : String} (he : key ≠ e) :
    dlookup key (compareKey base sc acc e).rel = dlookup key acc.rel ∧
    dlookup key (compareKey base sc acc e).dif = dlookup key acc.dif ∧
    dlookup key (compareKey base sc acc e).difRel = dlookup key acc.difRel := by
  unfold compareKey
  rcases h1 : dlookup e base with _ | A' <;> rcases h2 : dlookup e sc with _ | B' <;>
    simp
  split <;> simp [dlookup_dinsert_ne he]

lemma compareFold_not_mem (ext : List String) (acc : CompAcc) (hk : key ∉ ext) :
    dlookup key (List.foldl (compareKey base sc) acc ext).rel = dlookup key acc.rel ∧
    dlookup key (List.foldl (compareKey base sc) acc ext).dif = dlookup key acc.dif ∧
    dlookup key (List.foldl (compareKey base sc) acc ext).difRel = dlookup key acc.difRel := by
  induction ext generalizing acc with
  | nil => exact ⟨rfl, rfl, rfl⟩
  | cons e rest ih =>
    have he : key ≠ e := fun h => hk (h ▸ List.mem_cons_self e rest)
    have hr : key ∉ rest := fun h => hk (List.mem_cons_of_mem e h)
    obtain ⟨r1, r2, r3⟩ := ih (compareKey base sc acc e) hr
    obtain ⟨s1, s2, s3⟩ := compareKey_lookup_ne acc he
    exact ⟨r1.trans s1, r2.trans s2, r3.trans s3⟩

lemma compareFold_match (hA : dlookup key base = some A) (hB : dlookup key sc = some B)
    (hsh : A.shape = B.shape) (ext : List String) (acc : CompAcc) (hk : key ∈ ext) :
    dlookup key (List.foldl (compareKey base sc) acc ext).rel = some (mkRel A B) ∧
    dlookup key (List.foldl (compareKey base sc) acc ext).dif = some (mkDif A B) ∧
    dlookup key (List.foldl (compareKey base sc) acc ext).difRel = some (mkDifRel A B) := by
  induction ext generalizing acc with
  | nil => cases hk
  | cons e rest ih =>
    by_cases hke : key ∈ rest
    · exact ih (compareKey base sc acc e) hke
    · have he : key = e := by
        rcases List.mem_cons.mp hk with h | h
        · exact h
        · exact absurd h hke
      subst he
      have hstep : dlookup key (compareKey base sc acc key).rel = some (mkRel A B) ∧
          dlookup key (compareKey base sc acc key).dif = some (mkDif A B) ∧
          dlookup key (compareKey base sc acc key).difRel = some (mkDifRel A B) := by
        unfold compareKey
        rw [hA, hB]
        simp [hsh, dlookup_dinsert_self]
      obtain ⟨r1, r2, r3⟩ := compareFold_not_mem rest (compareKey base sc acc key) hke
      exact ⟨r1.trans hstep.1, r2.trans hstep.2.1, r3.trans hstep.2.2⟩

lemma compareFold_mismatch (hA : dlookup key base = some A) (hB : dlookup key sc = some B)
    (hsh : A.shape ≠ B.shape) (ext : List String) (acc : CompAcc) :
    dlookup key (List.foldl (compareKey base sc) acc ext).rel = dlookup key acc.rel ∧
    dlookup key (List.foldl (compareKey base sc) acc ext).dif = dlookup key acc.dif ∧
    dlookup key (List.foldl (compareKey base sc) acc ext).difRel = dlookup key acc.difRel := by
  induction ext generalizing acc with
  | nil => exact ⟨rfl, rfl, rfl⟩
  | cons e rest ih =>
    obtain ⟨r1, r2, r3⟩ := ih (compareKey base sc acc e)
    by_cases he : key = e
    · subst he
      have hstep : dlookup key (compareKey base sc acc key).rel = dlookup key acc.rel ∧
          dlookup key (compareKey base sc acc key).dif = dlookup key acc.dif ∧
          dlookup key (compareKey base sc acc key).difRel = dlookup key acc.difRel := by
        unfold compareKey
        rw [hA, hB]
        simp [hsh]
      exact ⟨r1.trans hstep.1, r2.trans hstep.2.1, r3.trans hstep.2.2⟩
    · obtain ⟨s1, s2, s3⟩ := compareKey_lookup_ne acc he
      exact ⟨r1.trans s1, r2.trans s2, r3.trans s3⟩

lemma compareFold_mismatch_warn (hA : dlookup key base = some A)
    (hB : dlookup key sc = some B) (hsh : A.shape ≠ B.shape)
    (ext : List String) (acc : CompAcc) (hk : key ∈ ext) :
    shapeWarn key A B ∈ (List.foldl (compareKey base sc) acc ext).log := by
  induction ext generalizing acc with
  | nil => cases hk
  | cons e rest ih =>
    by_cases hke : key ∈ rest
    · exact ih (compareKey base sc acc e) hke
    · have he : key = e := by
        rcases List.mem_cons.mp hk with h | h
        · exact h
        · exact absurd h hke
      subst he
      refine compareFold_log_mono rest (compareKey base sc acc key) ?_
      unfold compareKey
      rw [hA, hB]
      simp [hsh]

end CompareLemmas

/-- C3: in the comparison phase, for every variable that is actually compared
(present in both datasets with equal shapes), the relative and
relative-difference outputs are exactly zero at every index where the baseline
value is exactly zero (no exception, no infinity), regardless of the scenario
value there, and the absolute difference is scenario minus baseline
everywhere. -/
theorem compare_zero_guarded_division
    (base : Dataset) (scenarios : List Dataset) (extended : List String)
    (s : Nat) (sc : Dataset) (key : String) (A B : NDArray)
    (hs : scenarios[s]? = some sc) (hk : key ∈ extended)
    (hA : dlookup key base = some A) (hB : dlookup key sc = some B)
    (hsh : A.shape = B.shape) :
    ((comparisonsStep base scenarios extended).rel[s]?).bind (dlookup key) =
        some (mkRel A B) ∧
    ((comparisonsStep base scenarios extended).dif[s]?).bind (dlookup key) =
        some (mkDif A B) ∧
    ((comparisonsStep base scenarios extended).difRel[s]?).bind (dlookup key) =
        some (mkDifRel A B) ∧
    (∀ idx, A.data idx = 0 →
      (mkRel A B).data idx = 0 ∧ (mkDifRel A B).data idx = 0) ∧
    (∀ idx, (mkDif A B).data idx = B.data idx - A.data idx) := by
  obtain ⟨r1, r2, r3⟩ :=
    compareFold_match hA hB hsh extended { rel := [], dif := [], difRel := [], log := [] } hk
  refine ⟨?_, ?_, ?_, ?_, fun idx => rfl⟩
  · simp [comparisonsStep, List.getElem?_map, hs, compareOne, r1]
  · simp [comparisonsStep, List.getElem?_map, hs, compareOne, r2]
  · simp [comparisonsStep, List.getElem?_map, hs, compareOne, r3]
  · intro idx h0
    constructor
    · simp [mkRel, h0]
    · simp [mkDifRel, h0]

/-- C3 (witness): the zero-guard theorem applied to a concrete baseline that
is zero at index 0. -/
theorem compare_zero_guarded_division_witness :
    ((comparisonsStep [("real_gdp", arrZeroAt0)] [[("real_gdp", arrThree)]]
          ["real_gdp"]).rel[0]?).bind (dlookup "real_gdp") =
        some (mkRel arrZeroAt0 arrThree) ∧
    (mkRel arrZeroAt0 arrThree).data [0] = 0 ∧
    (mkDifRel arrZeroAt0 arrThree).data [0] = 0 := by
  have h := compare_zero_guarded_division [("real_gdp", arrZeroAt0)]
    [[("real_gdp", arrThree)]] ["real_gdp"] 0 [("real_gdp", arrThree)]
    "real_gdp" arrZeroAt0 arrThree rfl (by simp) rfl rfl rfl
  have h0 : arrZeroAt0.data [0] = 0 := rfl
  exact ⟨h.1, (h.2.2.2.1 [0] h0).1, (h.2.2.2.1 [0] h0).2⟩

/-- C6: shape mismatch is non-fatal: a variable present in both datasets with
different shapes is omitted from all three comparison maps of that scenario,
and the diagnostic log contains the warning that references the variable
name. -/
theorem compare_shape_mismatch_skipped
    (base : Dataset) (scenarios : List Dataset) (extended : List String)
    (s : Nat) (sc : Dataset) (key : String) (A B : NDArray)
    (hs : scenarios[s]? = some sc) (hk : key ∈ extended)
    (hA : dlookup key base = some A) (hB : dlookup key sc = some B)
    (hsh : A.shape ≠ B.shape) :
    ((comparisonsStep base scenarios extended).rel[s]?).bind (dlookup key) = none ∧
    ((comparisonsStep base scenarios extended).dif[s]?).bind (dlookup key) = none ∧
    ((comparisonsStep base scenarios extended).difRel[s]?).bind (dlookup key) = none ∧
    shapeWarn key A B ∈ (comparisonsStep base scenarios extended).log := by
  obtain ⟨r1, r2, r3⟩ :=
    compareFold_mismatch hA hB hsh extended { rel := [], dif := [], difRel := [], log := [] }
  refine ⟨?_, ?_, ?_, ?_⟩
  · simp [comparisonsStep, List.getElem?_map, hs, compareOne, r1, dlookup]
  · simp [comparisonsStep, List.getElem?_map, hs, compareOne, r2, dlookup]
  · simp [comparisonsStep, List.getElem?_map, hs, compareOne, r3, dlookup]
  · refine List.mem_flatten.mpr ⟨(compareOne base sc extended).log, ?_, ?_⟩
    · exact List.mem_map_of_mem _ (List.getElem?_mem hs)
    · exact compareFold_mismatch_warn hA hB hsh extended _ hk

/-- C6 (witness): the spec's example, baseline `real_gdp` of shape (13, 27)
against scenario shape (13, 26). -/
theorem compare_shape_mismatch_skipped_witness :
    ((comparisonsStep [("real_gdp", arr13x27)] [[("real_gdp", arr13x26)]]
          ["real_gdp"]).rel[0]?).bind (dlookup "real_gdp") = none ∧
    shapeWarn "real_gdp" arr13x27 arr13x26 ∈
      (comparisonsStep [("real_gdp", arr13x27)] [[("real_gdp", arr13x26)]]
          ["real_gdp"]).log := by
  have h := compare_shape_mismatch_skipped [("real_gdp", arr13x27)]
    [[("real_gdp", arr13x26)]] ["real_gdp"] 0 [("real_gdp", arr13x26)]
    "real_gdp" arr13x27 arr13x26 rfl (by simp) rfl rfl (by decide)
  exact ⟨h.1, h.2.2.2⟩

lemma dinsert_self_of_lookup {k : String} {v : NDArray} {d : Dataset}
    (h : dlookup k d = some v) : dinsert k v d = d := by
  induction d with
  | nil => simp [dlookup] at h
  | cons p rest ih =>
    obtain ⟨a, b⟩ := p
    by_cases ha : a = k
    · subst ha
      simp [dlookup] at h
      simp [dinsert, h]
    · simp [dlookup, ha] at h
      simp [dinsert, ha, ih h]

lemma emap_ok_length {α β ε : Type} {f : α → Except ε β} :
    ∀ {l : List α} {l' : List β}, emap f l = .ok l' → l'.length = l.length := by
  intro l
  induction l with
  | nil =>
    intro l' h
    simp only [emap] at h
    cases h
    rfl
  | cons a rest ih =>
    intro l' h
    simp only [emap] at h
    obtain ⟨b, h1, h2⟩ := bindOk h
    obtain ⟨bs, h3, h4⟩ := bindOk h2
    cases h4
    simp [ih h3]

lemma emap_ok_getElem? {α β ε : Type} {f : α → Except ε β} :
    ∀ {l : List α} {l' : List β}, emap f l = .ok l' →
      ∀ (i : Nat) (a : α), l[i]? = some a →
        ∃ b, l'[i]? = some b ∧ f a = .ok b := by
  intro l
  induction l with
  | nil =>
    intro l' h i a ha
    simp at ha
  | cons x rest ih =>
    intro l' h i a ha
    simp only [emap] at h
    obtain ⟨b, h1, h2⟩ := bindOk h
    obtain ⟨bs, h3, h4⟩ := bindOk h2
    cases h4
    cases i with
    | zero =>
      simp at ha
      subst ha
      exact ⟨b, by simp, h1⟩
    | succ j =>
      simp at ha
      obtain ⟨b', hb1, hb2⟩ := ih h3 j a ha
      exact ⟨b', by simpa using hb1, hb2⟩

lemma emap_ok_of_pointwise {α ε : Type} {f : α → Except ε α} :
    ∀ {l : List α}, (∀ (i : Nat) (a : α), l[i]? = some a → f a = .ok a) →
      emap f l = .ok l := by
  intro l
  induction l with
  | nil => intro _; rfl
  | cons x rest ih =>
    intro hp
    have hx : f x = .ok x := hp 0 x (by simp)
    have hr : emap f rest = .ok rest := by
      refine ih (fun i a ha => hp (i + 1) a ?_)
      simpa using ha
    simp only [emap]
    rw [hx, hr]
    rfl

lemma npMeanAxis1_ok {a : NDArray} (h : 2 ≤ a.shape.length) :
    npMeanAxis1 a = .ok (meanAxis1 a) := by
  unfold npMeanAxis1
  rw [if_pos h]

lemma npMeanAxis1_ok_inv {a m : NDArray} (h : npMeanAxis1 a = .ok m) :
    2 ≤ a.shape.length ∧ m = meanAxis1 a := by
  unfold npMeanAxis1 at h
  split at h
  · cases h
    exact ⟨by assumption, rfl⟩
  · cases h

lemma meansKey_miss {key : String} {st : Dataset × List Dataset}
    (h : dlookup key st.1 = none) : meansKey key st = .ok st := by
  unfold meansKey
  rw [h]

lemma meansKey_low {key : String} {st : Dataset × List Dataset} {A : NDArray}
    (hA : dlookup key st.1 = some A) (h2 : ¬ 2 ≤ A.shape.length) :
    meansKey key st = .ok st := by
  simp only [meansKey, hA, if_neg h2]

lemma meansKey_hit {key : String} {st stm : Dataset × List Dataset} {A : NDArray}
    (hA : dlookup key st.1 = some A) (h2 : 2 ≤ A.shape.length)
    (h : meansKey key st = .ok stm) :
    stm.1 = dinsert (key ++ "_mean") (meanAxis1 A) st.1 ∧
    stm.2.length = st.2.length ∧
    (∀ (i : Nat) (scA : Dataset), st.2[i]? = some scA →
      ∃ scB, stm.2[i]? = some scB ∧
        ((dlookup key scA = none ∧ scB = scA) ∨
         (∃ B, dlookup key scA = some B ∧ 2 ≤ B.shape.length ∧
            scB = dinsert (key ++ "_mean") (meanAxis1 B) scA))) := by
  simp only [meansKey, hA, if_pos h2] at h
  obtain ⟨m, h1, h2'⟩ := bindOk h
  obtain ⟨hm2, hmeq⟩ := npMeanAxis1_ok_inv h1
  subst hmeq
  obtain ⟨scs, h3, h4⟩ := bindOk h2'
  cases h4
  refine ⟨rfl, emap_ok_length h3, ?_⟩
  intro i scA hi
  obtain ⟨scB, hb1, hb2⟩ := emap_ok_getElem? h3 i scA hi
  refine ⟨scB, hb1, ?_⟩
  rcases hsc : dlookup key scA with _ | B
  · rw [hsc] at hb2
    cases hb2
    exact Or.inl ⟨rfl, rfl⟩
  · rw [hsc] at hb2
    obtain ⟨mb, k1, k2⟩ := bindOk hb2
    obtain ⟨kb2, kbe⟩ := npMeanAxis1_ok_inv k1
    subst kbe
    cases k2
    exact Or.inr ⟨B, rfl, kb2, rfl⟩

lemma meansKey_pres {kk : String} {st stm : Dataset × List Dataset}
    (h : meansKey kk st = .ok stm) :
    (∀ k, k ≠ kk ++ "_mean" → dlookup k stm.1 = dlookup k st.1) ∧
    stm.2.length = st.2.length ∧
    (∀ (i : Nat) (scA : Dataset), st.2[i]? = some scA → ∃ scB, stm.2[i]? = some scB ∧
      ∀ k, k ≠ kk ++ "_mean" → dlookup k scB = dlookup k scA) := by
  rcases hA : dlookup kk st.1 with _ | A
  · rw [meansKey_miss hA] at h
    cases h
    exact ⟨fun k _ => rfl, rfl, fun i scA hi => ⟨scA, hi, fun k _ => rfl⟩⟩
  · by_cases h2 : 2 ≤ A.shape.length
    · obtain ⟨e1, e2, e3⟩ := meansKey_hit hA h2 h
      refine ⟨?_, e2, ?_⟩
      · intro k hk
        rw [e1, dlookup_dinsert_ne hk]
      · intro i scA hi
        obtain ⟨scB, hb1, hcase⟩ := e3 i scA hi
        refine ⟨scB, hb1, ?_⟩
        intro k hk
        rcases hcase with ⟨_, rfl⟩ | ⟨B, _, _, rfl⟩
        · rfl
        · rw [dlookup_dinsert_ne hk]
    · rw [meansKey_low hA h2] at h
      cases h
      exact ⟨fun k _ => rfl, rfl, fun i scA hi => ⟨scA, hi, fun k _ => rfl⟩⟩

lemma meansFold_nil (st : Dataset × List Dataset) : meansFold [] st = .ok st := rfl

lemma meansFold_cons (kk : String) (rest : List String)
    (st : Dataset × List Dataset) :
    meansFold (kk :: rest) st = meansKey kk st >>= meansFold rest := rfl

lemma meansFold_pres : ∀ {L : List String} {st st' : Dataset × List Dataset},
    meansFold L st = .ok st' →
    (∀ k, (∀ kk ∈ L, k ≠ kk ++ "_mean") → dlookup k st'.1 = dlookup k st.1) ∧
    st'.2.length = st.2.length ∧
    (∀ (i : Nat) (scA : Dataset), st.2[i]? = some scA → ∃ scB, st'.2[i]? = some scB ∧
      ∀ k, (∀ kk ∈ L, k ≠ kk ++ "_mean") → dlookup k scB = dlookup k scA) := by
  intro L
  induction L with
  | nil =>
    intro st st' h
    rw [meansFold_nil] at h
    cases h
    exact ⟨fun k _ => rfl, rfl, fun i scA hi => ⟨scA, hi, fun k _ => rfl⟩⟩
  | cons kk rest ih =>
    intro st st' h
    rw [meansFold_cons] at h
    obtain ⟨stm, h1, h2⟩ := bindOk h
    obtain ⟨p1, p2, p3⟩ := meansKey_pres h1
    obtain ⟨q1, q2, q3⟩ := ih h2
    refine ⟨?_, q2.trans p2, ?_⟩
    · intro k hk
      exact (q1 k (fun x hx => hk x (List.mem_cons_of_mem kk hx))).trans
        (p1 k (hk kk (List.mem_cons_self kk rest)))
    · intro i scA hi
      obtain ⟨scM, m1, m2⟩ := p3 i scA hi
      obtain ⟨scB, b1, b2⟩ := q3 i scM m1
      exact ⟨scB, b1, fun k hk =>
        (b2 k (fun x hx => hk x (List.mem_cons_of_mem kk hx))).trans
          (m2 k (hk kk (List.mem_cons_self kk rest)))⟩

lemma meansFold_mean_of_base :
    ∀ {L : List String} {st st' : Dataset × List Dataset} {key : String} {A : NDArray},
    meansFold L st = .ok st' → key ∈ L →
    dlookup key st.1 = some A → 2 ≤ A.shape.length →
    (∀ kk ∈ L, key ≠ kk ++ "_mean") →
    (∀ kk ∈ L, key ++ "_mean" = kk ++ "_mean" → kk = key) →
    dlookup (key ++ "_mean") st'.1 = some (meanAxis1 A) := by
  intro L
  induction L with
  | nil =>
    intro st st' key A _ hk
    cases hk
  | cons kk rest ih =>
    intro st st' key A h hk hA h2 hd hj
    rw [meansFold_cons] at h
    obtain ⟨stm, h1, hrest⟩ := bindOk h
    by_cases hkr : key ∈ rest
    · have hAm : dlookup key stm.1 = some A :=
        ((meansKey_pres h1).1 key (hd kk (List.mem_cons_self kk rest))).trans hA
      exact ih hrest hkr hAm h2 (fun x hx => hd x (List.mem_cons_of_mem kk hx))
        (fun x hx => hj x (List.mem_cons_of_mem kk hx))
    · have hke : key = kk := by
        rcases List.mem_cons.mp hk with h' | h'
        · exact h'
        · exact absurd h' hkr
      subst hke
      obtain ⟨e1, _, _⟩ := meansKey_hit hA h2 h1
      have hside : ∀ kk' ∈ rest, key ++ "_mean" ≠ kk' ++ "_mean" := by
        intro kk' hx heq
        exact hkr ((hj kk' (List.mem_cons_of_mem key hx) heq) ▸ hx)
      have hpres := (meansFold_pres hrest).1 (key ++ "_mean") hside
      rw [hpres, e1, dlookup_dinsert_self]

lemma meansFold_mean_of_scen :
    ∀ {L : List String} {st st' : Dataset × List Dataset} {key : String}
      {A B : NDArray} {i : Nat} {scA : Dataset},
    meansFold L st = .ok st' → key ∈ L →
    dlookup key st.1 = some A → 2 ≤ A.shape.length →
    (∀ kk ∈ L, key ≠ kk ++ "_mean") →
    (∀ kk ∈ L, key ++ "_mean" = kk ++ "_mean" → kk = key) →
    st.2[i]? = some scA → dlookup key scA = some B →
    ∃ scB, st'.2[i]? = some scB ∧
      dlookup (key ++ "_mean") scB = some (meanAxis1 B) := by
  intro L
  induction L with
  | nil =>
    intro st st' key A B i scA _ hk
    cases hk
  | cons kk rest ih =>
    intro st st' key A B i scA h hk hA h2 hd hj hi hB
    rw [meansFold_cons] at h
    obtain ⟨stm, h1, hrest⟩ := bindOk h
    by_cases hkr : key ∈ rest
    · have hAm : dlookup key stm.1 = some A :=
        ((meansKey_pres h1).1 key (hd kk (List.mem_cons_self kk rest))).trans hA
      obtain ⟨scM, m1, m2⟩ := (meansKey_pres h1).2.2 i scA hi
      have hBm : dlookup key scM = some B :=
        (m2 key (hd kk (List.mem_cons_self kk rest))).trans hB
      exact ih hrest hkr hAm h2 (fun x hx => hd x (List.mem_cons_of_mem kk hx))
        (fun x hx => hj x (List.mem_cons_of_mem kk hx)) m1 hBm
    · have hke : key = kk := by
        rcases List.mem_cons.mp hk with h' | h'
        · exact h'
        · exact absurd h' hkr
      subst hke
      obtain ⟨_, _, e3⟩ := meansKey_hit hA h2 h1
      obtain ⟨scM, m1, mcase⟩ := e3 i scA hi
      have hmem : dlookup (key ++ "_mean") scM = some (meanAxis1 B) := by
        rcases mcase with ⟨hn, rfl⟩ | ⟨B', hB', _, rfl⟩
        · rw [hn] at hB
          cases hB
        · rw [hB'] at hB
          cases hB
          rw [dlookup_dinsert_self]
      have hside : ∀ kk' ∈ rest, key ++ "_mean" ≠ kk' ++ "_mean" := by
        intro kk' hx heq
        exact hkr ((hj kk' (List.mem_cons_of_mem key hx) heq) ▸ hx)
      obtain ⟨scB, b1, b2⟩ := (meansFold_pres hrest).2.2 i scM m1
      exact ⟨scB, b1, (b2 (key ++ "_mean") hside).trans hmem⟩

lemma str_append_cancel {a b m : String} (h : a ++ m = b ++ m) : a = b := by
  have hd := congrArg String.data h
  simp only [String.data_append] at hd
  exact String.ext (List.append_cancel_right hd)

lemma things_no_mean_suffix :
    ∀ k ∈ thingsWeCareAbout, ∀ kk ∈ thingsWeCareAbout, k ≠ kk ++ "_mean" := by
  decide

/-- C5 (amended): the means phase stores a scenario's axis-1 mean under
`<name>_mean` for a tracked variable present in the scenario whenever the
variable is also present in the baseline with a rank-at-least-2 baseline
array (the source nests the scenario computation inside the baseline checks);
the baseline's own mean is stored as well. -/
theorem scenario_mean_stored_when_base_present
    (base : Dataset) (scenarios : List Dataset) (b' : Dataset) (s' : List Dataset)
    (key : String) (A B : NDArray) (i : Nat) (scA : Dataset)
    (hok : meansStep base scenarios = .ok (b', s'))
    (hk : key ∈ thingsWeCareAbout)
    (hA : dlookup key base = some A) (h2 : 2 ≤ A.shape.length)
    (hi : scenarios[i]? = some scA) (hB : dlookup key scA = some B) :
    (∃ scB, s'[i]? = some scB ∧
      dlookup (key ++ "_mean") scB = some (meanAxis1 B)) ∧
    dlookup (key ++ "_mean") b' = some (meanAxis1 A) := by
  have hd : ∀ kk ∈ thingsWeCareAbout, key ≠ kk ++ "_mean" :=
    things_no_mean_suffix key hk
  have hj : ∀ kk ∈ thingsWeCareAbout, key ++ "_mean" = kk ++ "_mean" → kk = key :=
    fun kk _ heq => (str_append_cancel heq).symm
  exact ⟨meansFold_mean_of_scen hok hk hA h2 hd hj hi hB,
    meansFold_mean_of_base hok hk hA h2 hd hj⟩

/-- C5 (counterexample): a tracked variable (`real_gdp`) present in a
scenario with a 2-axis array but absent from the baseline gets no
`real_gdp_mean` in the scenario: the means phase leaves base and scenario
untouched, refuting the claim that scenario datasets are processed
independently of the baseline. -/
theorem scenario_mean_requires_base_counterexample :
    meansStep [] [[("real_gdp", arr2dSeven)]] =
      .ok ([], [[("real_gdp", arr2dSeven)]]) ∧
    dlookup ("real_gdp" ++ "_mean") [("real_gdp", arr2dSeven)] = none := by
  constructor
  · rfl
  · rfl

/-- C5 (witness): the amended theorem applied to a concrete baseline and
scenario that both carry `real_gdp`. -/
theorem scenario_mean_stored_when_base_present_witness :
    ∃ scB,
      ([[("real_gdp", arr2dNine), ("real_gdp" ++ "_mean", meanAxis1 arr2dNine)]] :
        List Dataset)[0]? = some scB ∧
      dlookup ("real_gdp" ++ "_mean") scB = some (meanAxis1 arr2dNine) :=
  (scenario_mean_stored_when_base_present
    [("real_gdp", arr2dSeven)] [[("real_gdp", arr2dNine)]]
    [("real_gdp", arr2dSeven), ("real_gdp" ++ "_mean", meanAxis1 arr2dSeven)]
    [[("real_gdp", arr2dNine), ("real_gdp" ++ "_mean", meanAxis1 arr2dNine)]]
    "real_gdp" arr2dSeven arr2dNine 0 [("real_gdp", arr2dNine)]
    rfl (by decide) rfl (by decide) (by simp) rfl).1

/-- C10: the means phase averages over axis 1 unconditionally for every
tracked variable of rank at least 2; hence a tracked array of shape
(time, country) yields a 1-dimensional `_mean` array of shape (time) holding
the per-time mean over the country axis, not a copy of the input. -/
theorem mean_axis1_on_2d_tracked
    (base : Dataset) (scenarios : List Dataset) (b' : Dataset) (s' : List Dataset)
    (key : String) (A : NDArray) (nt nc : Nat)
    (hok : meansStep base scenarios = .ok (b', s'))
    (hk : key ∈ thingsWeCareAbout)
    (hA : dlookup key base = some A) (hsh : A.shape = [nt, nc]) :
    dlookup (key ++ "_mean") b' = some (meanAxis1 A) ∧
    (meanAxis1 A).shape = [nt] ∧
    (∀ t : Nat, (meanAxis1 A).data [t] =
      (((List.range nc).map (fun c => A.data [t, c])).sum) / (nc : ℚ)) := by
  have h2 : 2 ≤ A.shape.length := by rw [hsh]; simp
  have hd : ∀ kk ∈ thingsWeCareAbout, key ≠ kk ++ "_mean" :=
    things_no_mean_suffix key hk
  have hj : ∀ kk ∈ thingsWeCareAbout, key ++ "_mean" = kk ++ "_mean" → kk = key :=
    fun kk _ heq => (str_append_cancel heq).symm
  refine ⟨meansFold_mean_of_base hok hk hA h2 hd hj, ?_, ?_⟩
  · simp [meanAxis1, hsh]
  · intro t
    simp [meanAxis1, hsh, List.insertIdx]

/-- C10 (witness): the 2-D mean theorem applied to a concrete (2, 3)
tracked array. -/
theorem mean_axis1_on_2d_tracked_witness :
    dlookup ("real_gdp" ++ "_mean")
        [("real_gdp", arr2dSeven), ("real_gdp" ++ "_mean", meanAxis1 arr2dSeven)] =
      some (meanAxis1 arr2dSeven) ∧
    (meanAxis1 arr2dSeven).shape = [2] :=
  have h := mean_axis1_on_2d_tracked [("real_gdp", arr2dSeven)] []
    [("real_gdp", arr2dSeven), ("real_gdp" ++ "_mean", meanAxis1 arr2dSeven)] []
    "real_gdp" arr2dSeven 2 3 rfl (by decide) rfl rfl
  ⟨h.1, h.2.1⟩

lemma meansFold_idem :
    ∀ {L : List String} {st st' : Dataset × List Dataset},
    (∀ k ∈ L, ∀ kk ∈ L, k ≠ kk ++ "_mean") →
    meansFold L st = .ok st' → meansFold L st' = .ok st' := by
  intro L
  induction L with
  | nil =>
    intro st st' _ h
    rw [meansFold_nil] at h
    cases h
    rfl
  | cons kk rest ih =>
    intro st st' hd h
    rw [meansFold_cons] at h
    obtain ⟨stm, h1, hrest⟩ := bindOk h
    have hfull : meansFold (kk :: rest) st = .ok st' := by
      rw [meansFold_cons, h1]
      exact hrest
    have hkk_self : kk ∈ kk :: rest := List.mem_cons_self kk rest
    have hdkk : ∀ x ∈ kk :: rest, kk ≠ x ++ "_mean" := hd kk hkk_self
    have hj' : ∀ x ∈ kk :: rest, kk ++ "_mean" = x ++ "_mean" → x = kk :=
      fun x _ heq => (str_append_cancel heq).symm
    have hlook : dlookup kk st'.1 = dlookup kk st.1 :=
      (meansFold_pres hfull).1 kk hdkk
    have hstepA : meansKey kk st' = .ok st' := by
      rcases hA : dlookup kk st.1 with _ | A
      · exact meansKey_miss (hlook.trans hA)
      · by_cases h2 : 2 ≤ A.shape.length
        · have hbm : dlookup (kk ++ "_mean") st'.1 = some (meanAxis1 A) :=
            meansFold_mean_of_base hfull hkk_self hA h2 hdkk hj'
          have hlen : st'.2.length = st.2.length := (meansFold_pres hfull).2.1
          have hemap : emap (fun sc =>
              match dlookup kk sc with
              | none => Except.ok sc
              | some b => do
                let mb ← npMeanAxis1 b
                Except.ok (dinsert (kk ++ "_mean") mb sc)) st'.2 = .ok st'.2 := by
            refine emap_ok_of_pointwise ?_
            intro i sc' hi'
            have hilt : i < st.2.length := by
              have : i < st'.2.length := by
                rcases List.getElem?_eq_some.mp hi' with ⟨hh, _⟩
                exact hh
              omega
            obtain ⟨scA, hscA⟩ : ∃ scA, st.2[i]? = some scA :=
              ⟨_, List.getElem?_eq_getElem hilt⟩
            obtain ⟨scB, hb1, hb2⟩ := (meansFold_pres hfull).2.2 i scA hscA
            have hBeq : scB = sc' := by
              rw [hi'] at hb1
              exact (Option.some_inj.mp hb1).symm
            subst hBeq
            rcases hB : dlookup kk scA with _ | B
            · have : dlookup kk scB = none := (hb2 kk hdkk).trans hB
              rw [this]
            · have hlB : dlookup kk scB = some B := (hb2 kk hdkk).trans hB
              have h2B : 2 ≤ B.shape.length := by
                obtain ⟨_, _, e3⟩ := meansKey_hit hA h2 h1
                obtain ⟨scM, _, mcase⟩ := e3 i scA hscA
                rcases mcase with ⟨hn, _⟩ | ⟨B', hB', h2B', _⟩
                · rw [hn] at hB
                  cases hB
                · rw [hB'] at hB
                  cases hB
                  exact h2B'
              obtain ⟨scB', b1', b2'⟩ :=
                meansFold_mean_of_scen hfull hkk_self hA h2 hdkk hj' hscA hB
              have hBeq' : scB' = scB := by
                rw [hi'] at b1'
                exact (Option.some_inj.mp b1').symm
              rw [hBeq'] at b2'
              rw [hlB]
              show (npMeanAxis1 B >>= fun mb =>
                Except.ok (dinsert (kk ++ "_mean") mb scB)) = Except.ok scB
              rw [npMeanAxis1_ok h2B]
              show Except.ok (dinsert (kk ++ "_mean") (meanAxis1 B) scB) = .ok scB
              rw [dinsert_self_of_lookup b2']
          have hA' : dlookup kk st'.1 = some A := hlook.trans hA
          simp only [meansKey, hA', if_pos h2]
          rw [npMeanAxis1_ok h2]
          show (emap _ st'.2 >>= fun scs =>
            Except.ok (dinsert (kk ++ "_mean") (meanAxis1 A) st'.1, scs)) = .ok st'
          rw [hemap]
          show Except.ok (dinsert (kk ++ "_mean") (meanAxis1 A) st'.1, st'.2) = .ok st'
          rw [dinsert_self_of_lookup hbm]
        · exact meansKey_low (hlook.trans hA) h2
    have hstepB : meansFold rest st' = .ok st' :=
      ih (fun k hk kk' hkk' =>
        hd k (List.mem_cons_of_mem kk hk) kk' (List.mem_cons_of_mem kk hkk')) hrest
    rw [meansFold_cons, hstepA]
    exact hstepB

/-- C9: the means phase is idempotent: running it again on its own output
succeeds and returns the output unchanged, so every `_mean` array is
identical to the first run's and no other key is removed or altered. -/
theorem means_step_idempotent (base : Dataset) (scenarios : List Dataset)
    (b1 : Dataset) (s1 : List Dataset)
    (h : meansStep base scenarios = .ok (b1, s1)) :
    meansStep b1 s1 = .ok (b1, s1) :=
  meansFold_idem things_no_mean_suffix h

/-- C9 (witness): idempotence applied to the concrete output of a first
means run over a one-variable baseline. -/
theorem means_step_idempotent_witness :
    meansStep [("real_gdp", arr2dSeven), ("real_gdp" ++ "_mean", meanAxis1 arr2dSeven)] [] =
      .ok ([("real_gdp", arr2dSeven), ("real_gdp" ++ "_mean", meanAxis1 arr2dSeven)], []) :=
  means_step_idempotent [("real_gdp", arr2dSeven)] []
    [("real_gdp", arr2dSeven), ("real_gdp" ++ "_mean", meanAxis1 arr2dSeven)] [] rfl

lemma meanAxis1_const_data (sh : List Nat) (q : ℚ) (h : sh.getD 1 0 ≠ 0)
    (idx : List Nat) :
    (meanAxis1 { shape := sh, data := fun _ => q }).data idx = q := by
  simp only [meanAxis1, List.map_const', List.length_range, List.sum_replicate,
    nsmul_eq_mul]
  rw [mul_comm, mul_div_assoc, div_self (by exact_mod_cast h), mul_one]

/-- C8: end-to-end example.  With a baseline holding `real_output` of shape
(13, 18, 26) all 100 and one scenario all 110, the full pipeline stores
`real_output_mean` of shape (13, 26) with every element 100 in the baseline
and 110 in the scenario, and the comparison maps hold 11/10 (relative), 10
(absolute difference) and 1/10 (relative difference) everywhere for
`real_output_mean`. -/
theorem pipeline_end_to_end_example :
    optShape (calcBaseVar c8base c8scens sectors_nace_1 sectors_nace_62
        time_steps "real_output_mean") = some [13, 26] ∧
    (∀ idx, optData (calcBaseVar c8base c8scens sectors_nace_1 sectors_nace_62
        time_steps "real_output_mean") idx = some 100) ∧
    optShape (calcScenVar c8base c8scens sectors_nace_1 sectors_nace_62
        time_steps 0 "real_output_mean") = some [13, 26] ∧
    (∀ idx, optData (calcScenVar c8base c8scens sectors_nace_1 sectors_nace_62
        time_steps 0 "real_output_mean") idx = some 110) ∧
    (∀ idx, optData (calcRelVar c8base c8scens sectors_nace_1 sectors_nace_62
        time_steps 0 "real_output_mean") idx = some (11 / 10)) ∧
    (∀ idx, optData (calcDifVar c8base c8scens sectors_nace_1 sectors_nace_62
        time_steps 0 "real_output_mean") idx = some 10) ∧
    (∀ idx, optData (calcDifRelVar c8base c8scens sectors_nace_1 sectors_nace_62
        time_steps 0 "real_output_mean") idx = some (1 / 10)) := by
  have hb : calcBaseVar c8base c8scens sectors_nace_1 sectors_nace_62
      time_steps "real_output_mean" = some (meanAxis1 c8baseArr) := rfl
  have hs : calcScenVar c8base c8scens sectors_nace_1 sectors_nace_62
      time_steps 0 "real_output_mean" = some (meanAxis1 c8scenArr) := rfl
  have hr : calcRelVar c8base c8scens sectors_nace_1 sectors_nace_62
      time_steps 0 "real_output_mean" =
      some (mkRel (meanAxis1 c8baseArr) (meanAxis1 c8scenArr)) := rfl
  have hd : calcDifVar c8base c8scens sectors_nace_1 sectors_nace_62
      time_steps 0 "real_output_mean" =
      some (mkDif (meanAxis1 c8baseArr) (meanAxis1 c8scenArr)) := rfl
  have hdr : calcDifRelVar c8base c8scens sectors_nace_1 sectors_nace_62
      time_steps 0 "real_output_mean" =
      some (mkDifRel (meanAxis1 c8baseArr) (meanAxis1 c8scenArr)) := rfl
  have hbd : ∀ idx, (meanAxis1 c8baseArr).data idx = 100 := by
    intro idx
    exact meanAxis1_const_data [13, 18, 26] 100 (by decide) idx
  have hsd : ∀ idx, (meanAxis1 c8scenArr).data idx = 110 := by
    intro idx
    exact meanAxis1_const_data [13, 18, 26] 110 (by decide) idx
  refine ⟨?_, ?_, ?_, ?_, ?_, ?_, ?_⟩
  · rw [hb]; rfl
  · intro idx
    rw [hb]
    simp [optData, hbd idx]
  · rw [hs]; rfl
  · intro idx
    rw [hs]
    simp [optData, hsd idx]
  · intro idx
    rw [hr]
    simp [optData, mkRel, hbd idx, hsd idx]
    norm_num
  · intro idx
    rw [hd]
    simp [optData, mkDif, hbd idx, hsd idx]
    norm_num
  · intro idx
    rw [hdr]
    simp [optData, mkDifRel, hbd idx, hsd idx]
    norm_num
